import Mathlib

/-!
Verification of the HobyPi pi-camera2 camera-control core against its
specification.  The repository ships the browser control panel
(`lab/pi-camera2/app/ui/app.js`) and the module README; the Python
controller/server sources (`app/controller.py`, `app/server.py`) are not
part of the checked-in tree, so the camera core is modelled from the
specification's words, while the client-side behaviour is embedded
directly from `app.js`.
-/

namespace HobyPi

/-- Modelled from the spec: the error taxonomy of §7 (the controller
sources `app/controller.py` / `app/server.py` are missing from the tree). -/
inductive CameraError
  | InvalidConfig
  | CameraNotRunning
  | DeviceBusy
  | AlreadyRecording
  | NotRecording
  | ActiveRecordingConflict
  | OutOfRange
  | NoFrameAvailable
  | HardwareFault
  deriving DecidableEq, Repr

/-- Modelled from the spec: CameraState enum of §3. -/
inductive CameraState
  | Stopped
  | Running
  | Paused
  deriving DecidableEq, Repr

/-- Modelled from the spec: CameraConfig of §3 (width, height positive,
fps positive, quality an integer 10–100); hflip/vflip are kept on the
session, matching the separate reporting in the §6 state query. -/
structure CameraConfig where
  width : Nat
  height : Nat
  fps : Nat
  quality : Nat
  deriving DecidableEq, Repr

/-- Modelled from the spec: the §3 validity invariant on CameraConfig. -/
def CameraConfig.valid (c : CameraConfig) : Bool :=
  decide (0 < c.width) && decide (0 < c.height) && decide (0 < c.fps) &&
    decide (10 ≤ c.quality) && decide (c.quality ≤ 100)

/-- Modelled from the spec: ExposureState of §3 (ae, awb, exposure, gain);
gain, a float in the spec, is modelled as an integer since no claim does
arithmetic on it. -/
structure ExposureState where
  ae : Bool
  awb : Bool
  exposure : Int
  gain : Int
  deriving DecidableEq, Repr

/-- Modelled from the spec: RecordingSession of §3; the file path is
modelled as the sequence number used in its timestamp/sequence name. -/
structure RecordingSession where
  file : Nat
  bitrate : Nat
  deriving DecidableEq, Repr

/-- Modelled from the spec: the observable state of the one process-wide
CameraSession together with the stores read by MediaCatalog.  `lastFrame`
is `none` until the first frame is captured; `seq` is the
timestamp/sequence counter used for collision-free media names. -/
structure SessionState where
  state : CameraState
  config : CameraConfig
  hflip : Bool
  vflip : Bool
  recording : Option RecordingSession
  lastFrame : Option Nat
  snapshots : List Nat
  videos : List Nat
  exposure : ExposureState
  seq : Nat
  deriving DecidableEq, Repr

/-- Modelled from the spec: §6 state query — a lock-free snapshot of
state, recording, config, hflip/vflip and exposure quality. -/
structure StateReport where
  state : CameraState
  recordingActive : Bool
  recordingFile : Option Nat
  config : CameraConfig
  hflip : Bool
  vflip : Bool
  exposure : ExposureState
  deriving DecidableEq, Repr

/-- Modelled from the spec: the §6 state query over the session. -/
def stateQuery (s : SessionState) : StateReport :=
  { state := s.state
    recordingActive := s.recording.isSome
    recordingFile := s.recording.map RecordingSession.file
    config := s.config
    hflip := s.hflip
    vflip := s.vflip
    exposure := s.exposure }

/-- Modelled from the spec: §4.1 DeviceArbiter's bounded retry loop.
`avail k` is the device-availability re-check performed after the
contention-resolution step of attempt `k`; the loop runs at most the
fixed retry count and succeeds only when a re-check reports available,
returning the index of the successful check. -/
def acquireFrom (avail : Nat → Bool) : Nat → Nat → Option Nat
  | _, 0 => none
  | k, n + 1 => if avail k then some k else acquireFrom avail (k + 1) n

/-- Modelled from the spec: §4.1 `DeviceArbiter.acquire()` with a fixed
retry count; `none` is the `DeviceBusy` exhaustion outcome. -/
def DeviceArbiter.acquire (avail : Nat → Bool) (retries : Nat) : Option Nat :=
  acquireFrom avail 0 retries

/-- Modelled from the spec: §4.2 `start()` — from Stopped it requires
`DeviceArbiter.acquire()` to succeed before initializing the pipeline
with the current config; acquisition failure reports `DeviceBusy` and
leaves the session unchanged at Stopped. -/
def startSession (avail : Nat → Bool) (retries : Nat) (s : SessionState) :
    Option CameraError × SessionState :=
  match s.state with
  | CameraState.Stopped =>
      match DeviceArbiter.acquire avail retries with
      | some _ => (none, { s with state := CameraState.Running })
      | none => (some CameraError.DeviceBusy, s)
  | _ => (none, s)

/-- Modelled from the spec: §4.2 `pause()` (Running→Paused). -/
def pauseSession (s : SessionState) : Option CameraError × SessionState :=
  match s.state with
  | CameraState.Running => (none, { s with state := CameraState.Paused })
  | _ => (some CameraError.CameraNotRunning, s)

/-- Modelled from the spec: §4.2 `resume()` (Paused→Running). -/
def resumeSession (s : SessionState) : Option CameraError × SessionState :=
  match s.state with
  | CameraState.Paused => (none, { s with state := CameraState.Running })
  | _ => (some CameraError.CameraNotRunning, s)

/-- Modelled from the spec: the glossary defines a sensor mode as
resolution plus pixel format, so a requested width/height different from
the current one requires a full sensor-mode change. -/
def needsSensorModeChange (cfg : CameraConfig) (s : SessionState) : Bool :=
  decide (cfg.width ≠ s.config.width) || decide (cfg.height ≠ s.config.height)

/-- Modelled from the spec: §4.2 `reconfigure(cfg)` — validates before
touching hardware (`InvalidConfig` otherwise), §4.4 fails
`ActiveRecordingConflict` when a sensor-mode change is required while a
recording is active, and otherwise applies the new geometry, preserving
subscribers and the rest of the session. -/
def reconfigure (cfg : CameraConfig) (s : SessionState) :
    Option CameraError × SessionState :=
  if ¬ cfg.valid then (some CameraError.InvalidConfig, s)
  else if s.recording.isSome && needsSensorModeChange cfg s then
    (some CameraError.ActiveRecordingConflict, s)
  else (none, { s with config := cfg })

/-- Modelled from the spec: §4.4 `RecordingManager.start(bitrate?)` —
fails `CameraNotRunning` unless the session is Running, fails
`AlreadyRecording` when a session is already open, otherwise opens a new
timestamp/sequence-named file. -/
def recordStart (bitrate : Nat) (s : SessionState) :
    Option CameraError × SessionState :=
  if s.state = CameraState.Running then
    match s.recording with
    | some _ => (some CameraError.AlreadyRecording, s)
    | none =>
        (none, { s with recording := some ⟨s.seq, bitrate⟩, seq := s.seq + 1 })
  else (some CameraError.CameraNotRunning, s)

/-- Modelled from the spec: §4.4 `RecordingManager.stop()` — fails
`NotRecording` when none is active, otherwise finalizes the file so it is
immediately visible to MediaCatalog. -/
def recordStop (s : SessionState) : Option CameraError × SessionState :=
  match s.recording with
  | none => (some CameraError.NotRecording, s)
  | some r => (none, { s with recording := none, videos := s.videos ++ [r.file] })

/-- Modelled from the spec: §5 — the dedicated capture path delivers a
frame into the session's most-recently-delivered slot while Running. -/
def captureFrame (f : Nat) (s : SessionState) : SessionState :=
  if s.state = CameraState.Running then { s with lastFrame := some f } else s

/-- Modelled from the spec: §4.3 `snapshot()` — copies the most recently
delivered frame to a collision-free, timestamp/sequence-named file and
returns its name; fails `NoFrameAvailable` if no frame was ever captured. -/
def snapshot (s : SessionState) : Except CameraError Nat × SessionState :=
  match s.lastFrame with
  | none => (Except.error CameraError.NoFrameAvailable, s)
  | some _ =>
      (Except.ok s.seq, { s with snapshots := s.snapshots ++ [s.seq], seq := s.seq + 1 })

/-- Modelled from the spec: §4.7 media kinds. -/
inductive MediaKind
  | snapshot
  | video
  deriving DecidableEq, Repr

/-- Modelled from the spec: §4.7 `MediaCatalog.list(kind)` — the
filenames of that kind in creation order. -/
def MediaCatalog.list (k : MediaKind) (s : SessionState) : List Nat :=
  match k with
  | MediaKind.snapshot => s.snapshots
  | MediaKind.video => s.videos

/-- Modelled from the spec: the §6 `advanced/exposure` request body —
ae, awb, and optional manual exposure/gain fields. -/
structure ExposureRequest where
  ae : Bool
  awb : Bool
  exposure : Option Int
  gain : Option Int
  deriving DecidableEq, Repr

/-- Modelled from the spec: §4.5 exposure/gain — `ae=true` makes the
manual fields inert (the device manages them); `ae=false` requires both
`exposure` and `gain` (else `InvalidConfig`) and applies them together as
one atomic update; every AdvancedControls operation fails
`CameraNotRunning` when the session is Stopped. -/
def applyExposure (req : ExposureRequest) (s : SessionState) :
    Option CameraError × SessionState :=
  if s.state = CameraState.Stopped then (some CameraError.CameraNotRunning, s)
  else if req.ae then
    (none, { s with exposure := { s.exposure with ae := true, awb := req.awb } })
  else
    match req.exposure, req.gain with
    | some e, some g =>
        (none, { s with exposure := { ae := false, awb := req.awb, exposure := e, gain := g } })
    | _, _ => (some CameraError.InvalidConfig, s)

/-- Modelled from the spec: what a stream subscriber receives on one
delivery — a frame, or the designated "stream halted" marker. -/
inductive StreamItem
  | frame (id : Nat)
  | halted
  deriving DecidableEq, Repr

/-- Modelled from the spec: §4.3 — while the session is Stopped or
Paused subscribers receive the halted marker instead of stale frames;
while Running they receive the most recently delivered frame. -/
def streamOutput (s : SessionState) : StreamItem :=
  match s.state, s.lastFrame with
  | CameraState.Running, some f => StreamItem.frame f
  | _, _ => StreamItem.halted

/-- Modelled from the spec: §4.3 FrameBroadcaster fan-out of one delivery
round to every registered subscriber, keeping all connections. -/
def broadcast (s : SessionState) (subs : List Nat) : List (Nat × StreamItem) :=
  subs.map (fun c => (c, streamOutput s))

/-- Modelled from the spec: §7 — hardware-layer faults are caught at the
CameraSession boundary and the session is forced to Stopped. -/
def hardwareFault (s : SessionState) : SessionState :=
  { s with state := CameraState.Stopped }

/-- Modelled from the spec: §3 LogEntry (timestamp, severity, message). -/
structure LogEntry where
  timestamp : Nat
  severity : Nat
  message : String
  deriving DecidableEq, Repr

/-- Modelled from the spec: the §4.6 default ring capacity, which the
README documents as the `PI_CAMERA_LOG_SIZE` default of 400. -/
def defaultLogCapacity : Nat := 400

/-- Modelled from the spec: §4.6 OperationLog append — O(1) append that
silently evicts the oldest entries on overflow past the capacity. -/
def OperationLog.append (cap : Nat) (log : List LogEntry) (e : LogEntry) :
    List LogEntry :=
  let grown := log ++ [e]
  if cap < grown.length then grown.drop (grown.length - cap) else grown

/-- Modelled from the spec: a whole sequence of §4.6 appends in order. -/
def OperationLog.appendAll (cap : Nat) (log : List LogEntry) (es : List LogEntry) :
    List LogEntry :=
  es.foldl (OperationLog.append cap) log

/-- API endpoints the control panel (`app/ui/app.js`) calls during its
`bootstrap` routine. -/
inductive ApiCall
  | stateQuery
  | snapsList
  | videosList
  | logsList
  | startCall
  deriving DecidableEq, Repr

/-- User-visible notifications raised by `app.js`: a console warning or a
blocking alert box. -/
inductive Notice
  | consoleWarn (msg : String)
  | alertBox (msg : String)
  deriving DecidableEq, Repr

/-- Embedded from `lab/pi-camera2/app/ui/app.js` lines 451–463: on page
load, `bootstrap` fetches `/api/state` (via `refreshState`), refreshes the
snapshot, video and log panes, and — when the reported state is not
running — issues `/api/start`, demoting any auto-start failure to a
console warning rather than an alert.  `running` is the `state.running`
flag reported by `/api/state`; `startFails` says whether the `/api/start`
request throws. -/
def bootstrap (running : Bool) (startFails : Bool) : List ApiCall × List Notice :=
  let baseCalls := [ApiCall.stateQuery, ApiCall.snapsList, ApiCall.videosList,
    ApiCall.logsList]
  if running then (baseCalls, [])
  else
    (baseCalls ++ [ApiCall.startCall],
     if startFails then [Notice.consoleWarn "Auto-start failed"] else [])

/-- Embedded from `lab/pi-camera2/app/ui/app.js` lines 420–435
(`applyQuality`): the payload always carries `ae` and `awb`, and carries
`exposure` and `gain` exactly when `ae` is unchecked. -/
def applyQualityPayload (aeChecked awbChecked : Bool) (exposureInput gainInput : Int) :
    ExposureRequest :=
  { ae := aeChecked
    awb := awbChecked
    exposure := if aeChecked then none else some exposureInput
    gain := if aeChecked then none else some gainInput }

/-- A concrete stopped session at the README's default configuration
(1280x720 at 30 fps, quality 80), used as the base fixture. -/
def stoppedSession : SessionState :=
  { state := CameraState.Stopped
    config := { width := 1280, height := 720, fps := 30, quality := 80 }
    hflip := false
    vflip := false
    recording := none
    lastFrame := none
    snapshots := []
    videos := []
    exposure := { ae := true, awb := true, exposure := 0, gain := 0 }
    seq := 0 }

/-- The fixture after a successful `start()` with the device available. -/
def runningSession : SessionState :=
  (startSession (fun _ => true) 1 stoppedSession).2

/-- The fixture after additionally opening a recording. -/
def recSession : SessionState :=
  (recordStart 17000000 runningSession).2

/-- The fixture after the capture path has delivered one frame. -/
def frameSession : SessionState :=
  captureFrame 7 runningSession

/-- A concrete valid target configuration differing in resolution from
the fixture's current one. -/
def cfg640 : CameraConfig :=
  { width := 640, height := 480, fps := 30, quality := 80 }

/-- Discriminates console warnings from alert boxes. -/
def Notice.isWarn : Notice → Bool
  | Notice.consoleWarn _ => true
  | Notice.alertBox _ => false

/-- The suffix of the most recent `cap` elements of a list. -/
def lastN (cap : Nat) (l : List α) : List α :=
  l.drop (l.length - cap)

/-- Three concrete log entries, one more than the capacity used in the
ring-buffer witness. -/
def logsFixture : List LogEntry :=
  [⟨1, 0, "a"⟩, ⟨2, 0, "b"⟩, ⟨3, 0, "c"⟩]

/-- The arbiter only ever reports success at an attempt whose
availability re-check returned true. -/
theorem acquireFrom_sound (avail : Nat → Bool) :
    ∀ (n k i : Nat), acquireFrom avail k n = some i → avail i = true := by
  intro n
  induction n with
  | zero => intro k i h; simp [acquireFrom] at h
  | succ n ih =>
      intro k i h
      by_cases hk : avail k
      · simp [acquireFrom, hk] at h
        subst h
        exact hk
      · simp only [acquireFrom, hk, Bool.false_eq_true, if_false] at h
        exact ih (k + 1) i h

/-- Claim C1: from Stopped, `start()` transitions to Running when the
arbiter acquires the device; when every availability re-check within the
fixed retry count fails, it returns `DeviceBusy` and leaves the session
unchanged at Stopped; and acquisition succeeds only at an attempt whose
final availability re-check reported the device available. -/
theorem startSession_device_arbitration (avail : Nat → Bool) (retries : Nat)
    (s : SessionState) (h : s.state = CameraState.Stopped) :
    ((DeviceArbiter.acquire avail retries).isSome →
        (startSession avail retries s).1 = none ∧
        (startSession avail retries s).2.state = CameraState.Running) ∧
    (DeviceArbiter.acquire avail retries = none →
        (startSession avail retries s).1 = some CameraError.DeviceBusy ∧
        (startSession avail retries s).2 = s ∧
        (startSession avail retries s).2.state = CameraState.Stopped) ∧
    (∀ i, DeviceArbiter.acquire avail retries = some i → avail i = true) := by
  refine ⟨?_, ?_, ?_⟩
  · intro hacq
    obtain ⟨i, hi⟩ := Option.isSome_iff_exists.mp hacq
    simp [startSession, h, hi]
  · intro hacq
    simp [startSession, h, hacq]
  · intro i hi
    exact acquireFrom_sound avail retries 0 i hi

/-- Witness for C1 at concrete inputs: an always-available device makes
`start()` reach Running; a never-available device yields `DeviceBusy`
with the state still Stopped. -/
theorem startSession_device_arbitration_witness :
    (startSession (fun _ => true) 1 stoppedSession).2.state = CameraState.Running ∧
    (startSession (fun _ => false) 1 stoppedSession).1 = some CameraError.DeviceBusy ∧
    (startSession (fun _ => false) 1 stoppedSession).2.state = CameraState.Stopped :=
  ⟨((startSession_device_arbitration (fun _ => true) 1 stoppedSession rfl).1
      (by decide)).2,
   ((startSession_device_arbitration (fun _ => false) 1 stoppedSession rfl).2.1
      (by decide)).1,
   ((startSession_device_arbitration (fun _ => false) 1 stoppedSession rfl).2.1
      (by decide)).2.2⟩

/-- Claim C8: from Running, `pause()` then `resume()` succeed and are an
identity on the whole session, so the state query afterwards reports the
same config and hflip/vflip, and the state is Running again. -/
theorem pause_resume_roundtrip (s : SessionState)
    (h : s.state = CameraState.Running) :
    (pauseSession s).1 = none ∧
    (resumeSession (pauseSession s).2).1 = none ∧
    (resumeSession (pauseSession s).2).2 = s ∧
    (stateQuery (resumeSession (pauseSession s).2).2).config = (stateQuery s).config ∧
    (stateQuery (resumeSession (pauseSession s).2).2).hflip = (stateQuery s).hflip ∧
    (stateQuery (resumeSession (pauseSession s).2).2).vflip = (stateQuery s).vflip ∧
    (resumeSession (pauseSession s).2).2.state = CameraState.Running := by
  cases s
  simp_all [pauseSession, resumeSession, stateQuery]

/-- Witness for C8 at the concrete running fixture. -/
theorem pause_resume_roundtrip_witness :
    (pauseSession runningSession).1 = none ∧
    (resumeSession (pauseSession runningSession).2).2 = runningSession ∧
    (resumeSession (pauseSession runningSession).2).2.state = CameraState.Running :=
  ⟨(pause_resume_roundtrip runningSession rfl).1,
   (pause_resume_roundtrip runningSession rfl).2.2.1,
   (pause_resume_roundtrip runningSession rfl).2.2.2.2.2.2⟩

/-- Claim C7: while the session is Stopped or Paused every subscriber of
one delivery round receives the halted marker, no connection is dropped,
and a hardware fault (which forces Stopped) likewise makes every
subscriber receive the halted marker. -/
theorem halted_marker_on_stopped_or_paused (s : SessionState) (subs : List Nat)
    (h : s.state = CameraState.Stopped ∨ s.state = CameraState.Paused) :
    broadcast s subs = subs.map (fun c => (c, StreamItem.halted)) ∧
    (broadcast s subs).map Prod.fst = subs ∧
    (∀ t : SessionState, broadcast (hardwareFault t) subs =
        subs.map (fun c => (c, StreamItem.halted))) := by
  have hout : streamOutput s = StreamItem.halted := by
    rcases h with h | h <;> simp [streamOutput, h]
  refine ⟨by simp [broadcast, hout], ?_, ?_⟩
  · induction subs with
    | nil => simp [broadcast]
    | cons a l ih => simpa [broadcast] using ih
  · intro t
    simp [broadcast, streamOutput, hardwareFault]

/-- Witness for C7 with two concrete subscribers of the stopped fixture. -/
theorem halted_marker_witness :
    broadcast stoppedSession [1, 2] = [1, 2].map (fun c => (c, StreamItem.halted)) ∧
    (broadcast stoppedSession [1, 2]).map Prod.fst = [1, 2] :=
  ⟨(halted_marker_on_stopped_or_paused stoppedSession [1, 2] (Or.inl rfl)).1,
   (halted_marker_on_stopped_or_paused stoppedSession [1, 2] (Or.inl rfl)).2.1⟩

/-- Claim C10: the control panel's load-time `bootstrap` queries
`/api/state` first and, when the reported state is not running, issues
`/api/start`; when the state is running it does not; and an auto-start
failure produces only a console warning, never an alert box. -/
theorem bootstrap_autostart (sf : Bool) :
    (bootstrap false sf).1.head? = some ApiCall.stateQuery ∧
    ApiCall.startCall ∈ (bootstrap false sf).1 ∧
    ApiCall.startCall ∉ (bootstrap true sf).1 ∧
    (bootstrap false true).2 = [Notice.consoleWarn "Auto-start failed"] ∧
    (∀ n ∈ (bootstrap false sf).2, n.isWarn = true) := by
  cases sf <;> decide

/-- Counterexample to C2 as stated: from the reachable session with an
active recording, the valid config 640x480@30 q=80 (a resolution change,
hence a sensor-mode change) is rejected with `ActiveRecordingConflict`
instead of succeeding, and the state query does not return it. -/
theorem reconfigure_any_state_counterexample :
    cfg640.valid = true ∧
    (reconfigure cfg640 recSession).1 = some CameraError.ActiveRecordingConflict ∧
    (stateQuery (reconfigure cfg640 recSession).2).config ≠ cfg640 := by
  decide

/-- Claim C2 (amended): for every valid config, from any session in which
no active recording would require a sensor-mode change, `reconfigure`
succeeds and an immediately following state query returns exactly that
config. -/
theorem reconfigure_state_query_roundtrip (cfg : CameraConfig) (s : SessionState)
    (hv : cfg.valid = true)
    (hnc : s.recording = none ∨ needsSensorModeChange cfg s = false) :
    (reconfigure cfg s).1 = none ∧
    (stateQuery (reconfigure cfg s).2).config = cfg := by
  have hcond : (s.recording.isSome && needsSensorModeChange cfg s) = false := by
    rcases hnc with h | h <;> simp [h]
  simp [reconfigure, hv, hcond, stateQuery]

/-- Witness for the amended C2 at a concrete valid config and the
stopped fixture (no recording active). -/
theorem reconfigure_state_query_roundtrip_witness :
    (reconfigure cfg640 stoppedSession).1 = none ∧
    (stateQuery (reconfigure cfg640 stoppedSession).2).config = cfg640 :=
  ⟨(reconfigure_state_query_roundtrip cfg640 stoppedSession (by decide) (Or.inl rfl)).1,
   (reconfigure_state_query_roundtrip cfg640 stoppedSession (by decide) (Or.inl rfl)).2⟩

/-- Claim C3: a valid reconfiguration that requires a sensor-mode change
while a recording is active fails with `ActiveRecordingConflict` and
leaves the whole session — in particular the active recording — exactly
as it was. -/
theorem reconfigure_recording_conflict (cfg : CameraConfig) (s : SessionState)
    (r : RecordingSession) (hv : cfg.valid = true) (hr : s.recording = some r)
    (hm : needsSensorModeChange cfg s = true) :
    reconfigure cfg s = (some CameraError.ActiveRecordingConflict, s) ∧
    (reconfigure cfg s).2.recording = some r := by
  have heq : reconfigure cfg s = (some CameraError.ActiveRecordingConflict, s) := by
    simp [reconfigure, hv, hr, hm]
  exact ⟨heq, by rw [heq]; exact hr⟩

/-- Witness for C3 at the recording fixture and a resolution-changing
valid config. -/
theorem reconfigure_recording_conflict_witness :
    reconfigure cfg640 recSession = (some CameraError.ActiveRecordingConflict, recSession) ∧
    (reconfigure cfg640 recSession).2.recording = some ⟨0, 17000000⟩ :=
  ⟨(reconfigure_recording_conflict cfg640 recSession ⟨0, 17000000⟩ (by decide) rfl
      (by decide)).1,
   (reconfigure_recording_conflict cfg640 recSession ⟨0, 17000000⟩ (by decide) rfl
      (by decide)).2⟩

/-- Claim C4: with the session not Stopped, `advanced/exposure` with
`ae=true` succeeds, leaves the stored manual exposure/gain untouched and
ignores any supplied values (the result does not depend on them), and the
state query then shows `ae=true`; with `ae=false` and either field
missing it fails `InvalidConfig` leaving the session unchanged; with
`ae=false` and both present it applies both together as one atomic
update.  The control panel's `applyQuality` payload likewise always
carries both fields when `ae` is unchecked. -/
theorem applyExposure_atomic (req : ExposureRequest) (s : SessionState)
    (hs : s.state ≠ CameraState.Stopped) :
    (req.ae = true →
        (applyExposure req s).1 = none ∧
        (stateQuery (applyExposure req s).2).exposure.ae = true ∧
        (applyExposure req s).2.exposure.exposure = s.exposure.exposure ∧
        (applyExposure req s).2.exposure.gain = s.exposure.gain ∧
        (∀ e g, applyExposure { req with exposure := e, gain := g } s =
            applyExposure req s)) ∧
    (req.ae = false → (req.exposure = none ∨ req.gain = none) →
        applyExposure req s = (some CameraError.InvalidConfig, s)) ∧
    (∀ e g, req.ae = false → req.exposure = some e → req.gain = some g →
        (applyExposure req s).1 = none ∧
        (applyExposure req s).2.exposure =
          { ae := false, awb := req.awb, exposure := e, gain := g }) ∧
    (∀ (awb : Bool) (e g : Int),
        (applyQualityPayload false awb e g).exposure = some e ∧
        (applyQualityPayload false awb e g).gain = some g) := by
  refine ⟨?_, ?_, ?_, ?_⟩
  · intro hae
    refine ⟨?_, ?_, ?_, ?_, ?_⟩
    · simp [applyExposure, hs, hae]
    · simp [applyExposure, hs, hae, stateQuery]
    · simp [applyExposure, hs, hae]
    · simp [applyExposure, hs, hae]
    · intro e g
      simp [applyExposure, hs, hae]
  · intro hae hmiss
    cases hx : req.exposure with
    | none => simp [applyExposure, hs, hae, hx]
    | some e =>
        cases hg : req.gain with
        | none => simp [applyExposure, hs, hae, hx, hg]
        | some g =>
            rcases hmiss with h | h
            · rw [h] at hx
              exact Option.noConfusion hx
            · rw [h] at hg
              exact Option.noConfusion hg
  · intro e g hae he hg
    refine ⟨?_, ?_⟩ <;> simp [applyExposure, hs, hae, he, hg]
  · intro awb e g
    exact ⟨rfl, rfl⟩

/-- Witness for C4 at the running fixture: auto exposure succeeds,
`ae=false` without `gain` is `InvalidConfig`, and a full manual request
lands both values atomically. -/
theorem applyExposure_atomic_witness :
    (applyExposure ⟨true, true, some 5, some 2⟩ runningSession).1 = none ∧
    applyExposure ⟨false, true, some 5, none⟩ runningSession =
      (some CameraError.InvalidConfig, runningSession) ∧
    (applyExposure ⟨false, true, some 5, some 2⟩ runningSession).2.exposure =
      { ae := false, awb := true, exposure := 5, gain := 2 } :=
  ⟨((applyExposure_atomic ⟨true, true, some 5, some 2⟩ runningSession
      (by decide)).1 rfl).1,
   (applyExposure_atomic ⟨false, true, some 5, none⟩ runningSession
      (by decide)).2.1 rfl (Or.inr rfl),
   ((applyExposure_atomic ⟨false, true, some 5, some 2⟩ runningSession
      (by decide)).2.2.1 5 2 rfl rfl rfl).2⟩

/-- Claim C5: `record(start)` while not Running fails `CameraNotRunning`
with no file created and no recording opened; from Running with no
recording it opens exactly one recording, and a second `record(start)`
without an intervening stop fails `AlreadyRecording` leaving that one
recording open; `record(stop)` with no active recording fails
`NotRecording`. -/
theorem record_lifecycle (s : SessionState) (b : Nat) :
    (s.state ≠ CameraState.Running →
        recordStart b s = (some CameraError.CameraNotRunning, s) ∧
        (recordStart b s).2.videos = s.videos ∧
        (recordStart b s).2.recording = s.recording) ∧
    (s.state = CameraState.Running → s.recording = none →
        (recordStart b s).1 = none ∧
        (recordStart b s).2.recording = some ⟨s.seq, b⟩ ∧
        recordStart b (recordStart b s).2 =
          (some CameraError.AlreadyRecording, (recordStart b s).2)) ∧
    (s.recording = none → recordStop s = (some CameraError.NotRecording, s)) := by
  refine ⟨?_, ?_, ?_⟩
  · intro hs
    simp [recordStart, hs]
  · intro hs hr
    refine ⟨?_, ?_, ?_⟩ <;> simp [recordStart, hs, hr]
  · intro hr
    simp [recordStop, hr]

/-- Witness for C5: starting from Stopped errors and changes nothing,
the running fixture opens one recording, a second start on it errors
`AlreadyRecording`, and stopping with no recording errors
`NotRecording`. -/
theorem record_lifecycle_witness :
    recordStart 17000000 stoppedSession =
      (some CameraError.CameraNotRunning, stoppedSession) ∧
    (recordStart 17000000 runningSession).2.recording = some ⟨0, 17000000⟩ ∧
    recordStart 17000000 recSession = (some CameraError.AlreadyRecording, recSession) ∧
    recordStop stoppedSession = (some CameraError.NotRecording, stoppedSession) :=
  ⟨((record_lifecycle stoppedSession 17000000).1 (by decide)).1,
   ((record_lifecycle runningSession 17000000).2.1 rfl rfl).2.1,
   ((record_lifecycle runningSession 17000000).2.1 rfl rfl).2.2,
   (record_lifecycle stoppedSession 17000000).2.2 rfl⟩

/-- Claim C6: `snapshot()` before any frame was ever captured fails
`NoFrameAvailable` and leaves the session (hence the media stores)
unchanged; after at least one frame, provided every existing snapshot
name is below the sequence counter, it returns the fresh
sequence-numbered name, which collides with no existing snapshot and
appears in `MediaCatalog.list` for snapshots afterwards — and the
freshness invariant is preserved. -/
theorem snapshot_behavior (s : SessionState) :
    (s.lastFrame = none →
        (snapshot s).1 = Except.error CameraError.NoFrameAvailable ∧
        (snapshot s).2 = s) ∧
    (∀ f, s.lastFrame = some f → (∀ n ∈ s.snapshots, n < s.seq) →
        (snapshot s).1 = Except.ok s.seq ∧
        s.seq ∉ s.snapshots ∧
        s.seq ∈ MediaCatalog.list MediaKind.snapshot (snapshot s).2 ∧
        (∀ n ∈ (snapshot s).2.snapshots, n < (snapshot s).2.seq)) := by
  refine ⟨?_, ?_⟩
  · intro h
    simp [snapshot, h]
  · intro f hf hinv
    refine ⟨?_, ?_, ?_, ?_⟩
    · simp [snapshot, hf]
    · intro mem
      exact absurd (hinv _ mem) (lt_irrefl _)
    · simp [snapshot, hf, MediaCatalog.list]
    · intro n hn
      simp only [snapshot, hf] at hn ⊢
      rcases List.mem_append.mp hn with h | h
      · exact Nat.lt_succ_of_lt (hinv _ h)
      · simp only [List.mem_singleton] at h
        subst h
        exact Nat.lt_succ_self _



/-- Witness for C6: the stopped fixture (never a frame) fails
`NoFrameAvailable`; the frame fixture yields name 0, which appears in the
snapshot catalogue. -/
theorem snapshot_behavior_witness :
    (snapshot stoppedSession).1 = Except.error CameraError.NoFrameAvailable ∧
    (snapshot frameSession).1 = Except.ok frameSession.seq ∧
    frameSession.seq ∉ frameSession.snapshots ∧
    frameSession.seq ∈ MediaCatalog.list MediaKind.snapshot (snapshot frameSession).2 :=
  ⟨((snapshot_behavior stoppedSession).1 rfl).1,
   ((snapshot_behavior frameSession).2 7 rfl (by decide)).1,
   ((snapshot_behavior frameSession).2 7 rfl (by decide)).2.1,
   ((snapshot_behavior frameSession).2 7 rfl (by decide)).2.2.1⟩

/-- A single ring append is exactly keeping the last `cap` entries of the
grown list. -/
theorem OperationLog.append_eq_lastN (cap : Nat) (log : List LogEntry) (e : LogEntry) :
    OperationLog.append cap log e = lastN cap (log ++ [e]) := by
  simp only [OperationLog.append, lastN]
  split
  · rfl
  · next hnot =>
      rw [Nat.sub_eq_zero_of_le (Nat.le_of_not_lt hnot), List.drop_zero]

/-- The retained suffix never exceeds the capacity. -/
theorem lastN_length_le (cap : Nat) (l : List α) : (lastN cap l).length ≤ cap := by
  simp only [lastN, List.length_drop]
  omega

/-- Keeping the last `cap` entries absorbs an earlier truncation to the
last `cap` entries. -/
theorem lastN_append_absorb (cap : Nat) (l es : List α) :
    lastN cap (lastN cap l ++ es) = lastN cap (l ++ es) := by
  unfold lastN
  rw [← List.drop_append_of_le_length (Nat.sub_le l.length cap), List.drop_drop]
  congr 1
  simp only [List.length_drop, List.length_append]
  omega

/-- Folding ring appends over a sequence retains exactly the most recent
`cap` entries of the start contents followed by the sequence. -/
theorem OperationLog.appendAll_eq_lastN (cap : Nat) (es : List LogEntry) :
    ∀ log : List LogEntry, log.length ≤ cap →
      OperationLog.appendAll cap log es = lastN cap (log ++ es) := by
  induction es with
  | nil =>
      intro log h
      simp [OperationLog.appendAll, lastN, Nat.sub_eq_zero_of_le h]
  | cons e es ih =>
      intro log h
      have step : OperationLog.append cap log e = lastN cap (log ++ [e]) :=
        OperationLog.append_eq_lastN cap log e
      have hlen : (OperationLog.append cap log e).length ≤ cap := by
        rw [step]
        exact lastN_length_le cap _
      calc OperationLog.appendAll cap log (e :: es)
          = OperationLog.appendAll cap (OperationLog.append cap log e) es := rfl
        _ = lastN cap (OperationLog.append cap log e ++ es) := ih _ hlen
        _ = lastN cap (lastN cap (log ++ [e]) ++ es) := by rw [step]
        _ = lastN cap ((log ++ [e]) ++ es) := lastN_append_absorb cap _ es
        _ = lastN cap (log ++ e :: es) := by rw [List.append_assoc, List.singleton_append]

/-- Claim C9: the OperationLog ring buffer — whose default capacity
`PI_CAMERA_LOG_SIZE` is 400 — after more than `cap` appends starting
empty retains exactly the most recent `cap` entries in chronological
order (the suffix of the appended sequence), so the retained count equals
(and never exceeds) the capacity. -/
theorem operationLog_fifo (cap : Nat) (es : List LogEntry) (h : cap < es.length) :
    OperationLog.appendAll cap [] es = es.drop (es.length - cap) ∧
    (OperationLog.appendAll cap [] es).length = cap ∧
    defaultLogCapacity = 400 := by
  have hmain := OperationLog.appendAll_eq_lastN cap es [] (by simp)
  simp only [List.nil_append] at hmain
  refine ⟨hmain, ?_, rfl⟩
  rw [hmain]
  simp only [lastN, List.length_drop]
  omega

/-- Witness for C9: capacity 2, three appends, the last two entries
retained in order. -/
theorem operationLog_fifo_witness :
    OperationLog.appendAll 2 [] logsFixture = [⟨2, 0, "b"⟩, ⟨3, 0, "c"⟩] ∧
    (OperationLog.appendAll 2 [] logsFixture).length = 2 :=
  ⟨(operationLog_fifo 2 logsFixture (by decide)).1,
   (operationLog_fifo 2 logsFixture (by decide)).2.1⟩

end HobyPi
